import Mathlib

/-!
Shallow embedding of the gsync-liveness browser application: the data model of
src/types.ts, the remote verification service GeminiLivenessService of
src/unnamed/part_000, and the session state machine of src/App.tsx
(startVerification, reset, the captureFrame boundary and the orientation
handler), together with an event-step semantics over the component state that
also tracks the pending setTimeout callbacks created by startVerification.
-/

namespace Liveness

/-- The closed enum of Challenge.expectedMovement variants (src/types.ts). -/
inductive Movement
  | tilt_up
  | tilt_down
  | rotate_left
  | rotate_right
  | steady
  deriving DecidableEq, Repr

/-- Challenge (src/types.ts): instruction, expectedMovement, id. -/
structure Challenge where
  instruction : String
  expectedMovement : Movement
  id : String
  deriving DecidableEq, Repr

/-- LivenessStatus enum (src/types.ts), including the RECORDING variant. -/
inductive LivenessStatus
  | IDLE
  | INITIALIZING
  | CHALLENGE_REQUESTED
  | RECORDING
  | VERIFYING
  | SUCCESS
  | FAILED
  deriving DecidableEq, Repr

/-- GyroData (src/types.ts): each axis reading is number-or-null. -/
structure GyroData where
  alpha : Option ℚ
  beta : Option ℚ
  gamma : Option ℚ
  deriving DecidableEq, Repr

/-- A DOM deviceorientation event: each of alpha, beta, gamma may be null. -/
structure OrientationEvent where
  alpha : Option ℚ
  beta : Option ℚ
  gamma : Option ℚ
  deriving DecidableEq, Repr

/-- Runtime shape of a value cast to VerificationResult. src/types.ts declares
the three fields isLive, confidence and reasoning as required, but the cast in
GeminiLivenessService.verifyLiveness performs no runtime validation, so in the
actual object produced by JSON.parse each field may be absent. -/
structure VerificationResult where
  isLive : Option Bool
  confidence : Option ℚ
  reasoning : Option String
  deriving DecidableEq, Repr

/-- The body of the remote response as seen by verifyLiveness: response.text
may be falsy (empty or missing), may be text that is not valid JSON, or may be
a JSON object carrying any subset of the three schema fields. -/
inductive ResponseBody
  | emptyText
  | invalidJson
  | jsonObj (v : VerificationResult)
  deriving DecidableEq, Repr

/-- Outcome of the generateContent round trip inside verifyLiveness: the
transport may throw, or a response arrives carrying some body. -/
inductive VerifyOutcome
  | transportError
  | response (b : ResponseBody)
  deriving DecidableEq, Repr

/-- GeminiLivenessService.verifyLiveness (src/unnamed/part_000): a transport
error is caught, logged and rethrown; otherwise the response text — replaced
by the two-character empty-object literal when falsy — is passed to
JSON.parse, which throws on invalid JSON, and the parsed object is returned
as the verdict with no validation of the required fields. -/
def verifyLiveness : VerifyOutcome → Except Unit VerificationResult
  | .transportError => .error ()
  | .response .emptyText => .ok { isLive := none, confidence := none, reasoning := none }
  | .response .invalidJson => .error ()
  | .response (.jsonObj v) => .ok v

/-- The fixed CHALLENGES catalog (src/App.tsx lines 7-12). -/
def CHALLENGES : List Challenge :=
  [ { instruction := "Please tilt your phone UP slowly",
      expectedMovement := .tilt_up, id := "1" },
    { instruction := "Please tilt your phone DOWN slowly",
      expectedMovement := .tilt_down, id := "2" },
    { instruction := "Slowly rotate your phone to the LEFT",
      expectedMovement := .rotate_left, id := "3" },
    { instruction := "Slowly rotate your phone to the RIGHT",
      expectedMovement := .rotate_right, id := "4" } ]

/-- The React component state of App (src/App.tsx lines 15-21), plus the list
of challenges captured by pending setTimeout callbacks in creation order. The
source never stores the setTimeout handle and never calls clearTimeout, so a
pending callback survives reset and a later restart. -/
structure AppState where
  status : LivenessStatus
  gyro : GyroData
  currentChallenge : Option Challenge
  result : Option VerificationResult
  isCameraReady : Bool
  isGyroReady : Bool
  error : Option String
  pending : List Challenge
  deriving DecidableEq, Repr

/-- Initial gyro state (src/App.tsx line 16): all three axes start at 0. -/
def initialGyro : GyroData := { alpha := some 0, beta := some 0, gamma := some 0 }

/-- The orientation handler (src/App.tsx lines 60-67): each incoming reading
has null coalesced to 0 before being stored. -/
def handleOrientation (e : OrientationEvent) : GyroData :=
  { alpha := some (e.alpha.getD 0),
    beta := some (e.beta.getD 0),
    gamma := some (e.gamma.getD 0) }

/-- Initial component state: IDLE, zeroed gyro, nothing selected or stored. -/
def initState : AppState :=
  { status := .IDLE, gyro := initialGyro, currentChallenge := none,
    result := none, isCameraReady := false, isGyroReady := false,
    error := none, pending := [] }

/-- External outcomes available to one timer callback when it runs: the value
captureFrame returns (none when no frame is available, src/App.tsx lines
151-161) and the outcome of the remote verification round trip. -/
structure AttemptEnv where
  frame : Option String
  verify : VerifyOutcome
  deriving DecidableEq, Repr

/-- The setTimeout callback body of startVerification (src/App.tsx lines
174-191): set status to VERIFYING; if captureFrame yields no frame, set the
capture error message and return to IDLE; otherwise call verifyLiveness — on
a returned verdict store it and set SUCCESS when its isLive field is truthy
(undefined and false are both falsy in JS), else FAILED; on a thrown error
set the connectivity error message and return to IDLE. -/
def runTimeoutBody (_c : Challenge) (env : AttemptEnv) (s : AppState) : AppState :=
  let s1 := { s with status := LivenessStatus.VERIFYING }
  match env.frame with
  | none =>
      { s1 with error := some "Failed to capture camera frame.",
                status := LivenessStatus.IDLE }
  | some _ =>
      match verifyLiveness env.verify with
      | .ok v =>
          { s1 with result := some v,
                    status := if v.isLive.getD false then LivenessStatus.SUCCESS
                              else LivenessStatus.FAILED }
      | .error _ =>
          { s1 with error := some "Verification service unavailable. Check your internet connection.",
                    status := LivenessStatus.IDLE }

/-- The synchronous prefix of startVerification (src/App.tsx lines 163-174):
clear result and error, pass through INITIALIZING, pick the k-th challenge of
the catalog (k models the floor of random times catalog length, always in
range), record it as current, set CHALLENGE_REQUESTED, and register a new
4000 ms timer whose closure captures that challenge. -/
def startStep (k : Fin CHALLENGES.length) (s : AppState) : AppState :=
  let challenge := CHALLENGES.get k
  { s with result := none, error := none,
           currentChallenge := some challenge,
           status := LivenessStatus.CHALLENGE_REQUESTED,
           pending := s.pending ++ [challenge] }

/-- reset (src/App.tsx lines 194-199): status IDLE, result, challenge and
error cleared. No clearTimeout is issued, so pending timers are untouched. -/
def resetStep (s : AppState) : AppState :=
  { s with status := LivenessStatus.IDLE, result := none,
           currentChallenge := none, error := none }

/-- A pending timer fires: timers fire in creation order, so the head of the
pending list runs its callback body with the external outcomes env. With no
pending timer the event is a no-op. -/
def fireStep (env : AttemptEnv) (s : AppState) : AppState :=
  match s.pending with
  | [] => s
  | c :: rest => runTimeoutBody c env { s with pending := rest }

/-- A deviceorientation event is delivered: store the coalesced reading and
mark the gyro ready (src/App.tsx lines 60-67). -/
def orientStep (e : OrientationEvent) (s : AppState) : AppState :=
  { s with gyro := handleOrientation e, isGyroReady := true }

/-- The events that drive the session state: a call to startVerification with
random index k, a call to reset, the firing of the oldest pending timer with
external outcomes env, and a deviceorientation event. -/
inductive Event
  | start (k : Fin CHALLENGES.length)
  | reset
  | fire (env : AttemptEnv)
  | orient (e : OrientationEvent)

/-- One event applied to the component state. -/
def step : Event → AppState → AppState
  | .start k, s => startStep k s
  | .reset, s => resetStep s
  | .fire env, s => fireStep env s
  | .orient e, s => orientStep e s

/-- A finite sequence of events applied in order. -/
def run (s : AppState) (es : List Event) : AppState :=
  es.foldl (fun t e => step e t) s

/-- The states reachable from the initial component state. -/
inductive Reachable : AppState → Prop
  | init : Reachable initState
  | next (e : Event) {s : AppState} : Reachable s → Reachable (step e s)

/-- The state after starting, resetting before the 4000 ms delay elapses, and
starting again: both timers are still pending, the first in front. -/
def restartedState : AppState :=
  run initState [Event.start ⟨0, by decide⟩, Event.reset, Event.start ⟨1, by decide⟩]

/-- An attempt environment in which capture succeeds and the service returns a
positive verdict. -/
def liveEnv : AttemptEnv :=
  { frame := some "frame",
    verify := .response (.jsonObj
      { isLive := some true, confidence := some 1, reasoning := some "live" }) }

/-- The state after start, reset, restart, then both stale timers firing: the
first timer fails capture (setting the error), the second stores a positive
verdict and sets SUCCESS without clearing that error. -/
def mixedTraceState : AppState :=
  run restartedState
    [Event.fire { frame := none, verify := .transportError }, Event.fire liveEnv]

theorem runTimeoutBody_status (c : Challenge) (env : AttemptEnv) (s : AppState) :
    (runTimeoutBody c env s).status ≠ LivenessStatus.RECORDING := by
  unfold runTimeoutBody
  rcases env.frame with _ | f
  · simp
  · rcases h : verifyLiveness env.verify with e | v
    · simp [h]
    · simp only [h]
      split <;> simp

theorem step_status (e : Event) (s : AppState)
    (h : s.status ≠ LivenessStatus.RECORDING) :
    (step e s).status ≠ LivenessStatus.RECORDING := by
  cases e with
  | start k => simp [step, startStep]
  | reset => simp [step, resetStep]
  | orient ev => simpa [step, orientStep] using h
  | fire env =>
    simp only [step, fireStep]
    rcases s.pending with _ | ⟨c, rest⟩
    · exact h
    · exact runTimeoutBody_status c env _

/-- C7: For every preceding state, after reset the active challenge, the
verdict and the error are all cleared and the session state is Idle. -/
theorem reset_clears_attempt_state (s : AppState) :
    (resetStep s).status = LivenessStatus.IDLE ∧
    (resetStep s).result = none ∧
    (resetStep s).currentChallenge = none ∧
    (resetStep s).error = none :=
  ⟨rfl, rfl, rfl, rfl⟩

/-- C8: A call to start from Idle clears any previous verdict and error,
reaches CHALLENGE_REQUESTED within the one selection step, records exactly one
active challenge (and registers exactly one new timer for the attempt), and
that challenge is a member of the fixed catalog, its id one of the catalog
ids — no synthesized challenge ever appears. -/
theorem start_reaches_challenge_issued (s : AppState) (k : Fin CHALLENGES.length)
    (_hs : s.status = LivenessStatus.IDLE) :
    (startStep k s).result = none ∧
    (startStep k s).error = none ∧
    (startStep k s).status = LivenessStatus.CHALLENGE_REQUESTED ∧
    (startStep k s).currentChallenge = some (CHALLENGES.get k) ∧
    (startStep k s).pending = s.pending ++ [CHALLENGES.get k] ∧
    CHALLENGES.get k ∈ CHALLENGES ∧
    (CHALLENGES.get k).id ∈ CHALLENGES.map Challenge.id :=
  ⟨rfl, rfl, rfl, rfl, rfl, CHALLENGES.get_mem k.1 k.2,
    List.mem_map_of_mem Challenge.id (CHALLENGES.get_mem k.1 k.2)⟩

theorem start_reaches_challenge_issued_witness :
    initState.status = LivenessStatus.IDLE ∧
    ((startStep ⟨0, by decide⟩ initState).result = none ∧
     (startStep ⟨0, by decide⟩ initState).error = none ∧
     (startStep ⟨0, by decide⟩ initState).status = LivenessStatus.CHALLENGE_REQUESTED ∧
     (startStep ⟨0, by decide⟩ initState).currentChallenge = some (CHALLENGES.get ⟨0, by decide⟩) ∧
     (startStep ⟨0, by decide⟩ initState).pending = initState.pending ++ [CHALLENGES.get ⟨0, by decide⟩] ∧
     CHALLENGES.get ⟨0, by decide⟩ ∈ CHALLENGES ∧
     (CHALLENGES.get ⟨0, by decide⟩).id ∈ CHALLENGES.map Challenge.id) :=
  ⟨rfl, start_reaches_challenge_issued initState ⟨0, by decide⟩ rfl⟩

/-- C9 counterexample: before any orientation event the session's gyro sample
fields are all present with value 0, not absent — so the claim that every
field is absent before the first event is false for the initial state. -/
theorem initial_gyro_fields_present :
    initialGyro.alpha = some 0 ∧ initialGyro.beta = some 0 ∧
    initialGyro.gamma = some 0 ∧ initialGyro.alpha ≠ none := by
  refine ⟨rfl, rfl, rfl, ?_⟩
  simp [initialGyro]

/-- C9 amended: before the first orientation event every gyro field is present
with value 0, and after any event each stored field is the event's reading
with null coalesced to 0 — so absence, though representable in the GyroData
type, never occurs in the session's stored sample. -/
theorem gyro_fields_never_absent (e : OrientationEvent) :
    initialGyro = { alpha := some 0, beta := some 0, gamma := some 0 } ∧
    (handleOrientation e).alpha = some (e.alpha.getD 0) ∧
    (handleOrientation e).beta = some (e.beta.getD 0) ∧
    (handleOrientation e).gamma = some (e.gamma.getD 0) ∧
    (handleOrientation e).alpha ≠ none ∧
    (handleOrientation e).beta ≠ none ∧
    (handleOrientation e).gamma ≠ none := by
  refine ⟨rfl, rfl, rfl, rfl, ?_, ?_, ?_⟩ <;> simp [handleOrientation]

/-- C3 counterexample: an empty or missing response body is replaced by the
empty-object literal and parsed successfully, so verifyLiveness returns a
verdict with all three required fields absent instead of failing, and the
session stores that partial verdict. -/
theorem empty_body_yields_partial_verdict :
    verifyLiveness (.response .emptyText) =
      .ok { isLive := none, confidence := none, reasoning := none } ∧
    (run initState [Event.start ⟨0, by decide⟩,
        Event.fire { frame := some "frame", verify := .response .emptyText }]).result =
      some { isLive := none, confidence := none, reasoning := none } :=
  ⟨rfl, rfl⟩

/-- C3 amended: verifyLiveness fails exactly on a transport error or on a
non-empty body that is not valid JSON; an empty or missing body is replaced by
the empty-object literal and yields a verdict with all three fields absent,
and any valid JSON object body is returned as-is with no validation of the
required fields, so partial verdicts can be produced and stored. -/
theorem verifyLiveness_error_characterization (o : VerifyOutcome) :
    (verifyLiveness o = .error () ↔
      o = .transportError ∨ o = .response .invalidJson) ∧
    verifyLiveness (.response .emptyText) =
      .ok { isLive := none, confidence := none, reasoning := none } ∧
    (∀ v, verifyLiveness (.response (.jsonObj v)) = .ok v) := by
  refine ⟨?_, rfl, fun v => rfl⟩
  cases o with
  | transportError => simp [verifyLiveness]
  | response b => cases b <;> simp [verifyLiveness]

/-- C1: For a session attempt begun with no stale timer pending, when frame
capture succeeds and the remote call returns a verdict whose isLive field is
the boolean b, the session stores that exact verdict and ends in SUCCESS when
b is true and FAILED when b is false, with no error set in either terminal
state. -/
theorem verdict_stored_and_terminal_state (s : AppState) (k : Fin CHALLENGES.length)
    (env : AttemptEnv) (f : String) (v : VerificationResult) (b : Bool)
    (hp : s.pending = []) (hf : env.frame = some f)
    (hv : verifyLiveness env.verify = .ok v) (hb : v.isLive = some b) :
    (run s [Event.start k, Event.fire env]).result = some v ∧
    (run s [Event.start k, Event.fire env]).status =
      (if b then LivenessStatus.SUCCESS else LivenessStatus.FAILED) ∧
    (run s [Event.start k, Event.fire env]).error = none := by
  obtain ⟨fr, vo⟩ := env
  replace hf : fr = some f := hf
  replace hv : verifyLiveness vo = .ok v := hv
  subst hf
  simp [run, step, startStep, fireStep, runTimeoutBody, hp, hv, hb]

theorem verdict_stored_and_terminal_state_witness :
    (initState.pending = [] ∧ liveEnv.frame = some "frame" ∧
     verifyLiveness liveEnv.verify =
       .ok { isLive := some true, confidence := some 1, reasoning := some "live" } ∧
     ({ isLive := some true, confidence := some 1,
        reasoning := some "live" } : VerificationResult).isLive = some true) ∧
    ((run initState [Event.start ⟨0, by decide⟩, Event.fire liveEnv]).result =
       some { isLive := some true, confidence := some 1, reasoning := some "live" } ∧
     (run initState [Event.start ⟨0, by decide⟩, Event.fire liveEnv]).status =
       (if true then LivenessStatus.SUCCESS else LivenessStatus.FAILED) ∧
     (run initState [Event.start ⟨0, by decide⟩, Event.fire liveEnv]).error = none) :=
  ⟨⟨rfl, rfl, rfl, rfl⟩,
   verdict_stored_and_terminal_state initState ⟨0, by decide⟩ liveEnv "frame" _ true
     rfl rfl rfl rfl⟩

/-- C4: For a session attempt begun with no stale timer pending, when frame
capture fails at entry to the Verifying step, the session moves directly to
IDLE with the capture error set and no verdict stored; the outcome does not
depend on the remote verification component at all, because the remote client
is never invoked on that path. -/
theorem capture_failure_short_circuit (s : AppState) (k : Fin CHALLENGES.length)
    (env : AttemptEnv) (hp : s.pending = []) (hf : env.frame = none) :
    (run s [Event.start k, Event.fire env]).status = LivenessStatus.IDLE ∧
    (run s [Event.start k, Event.fire env]).error =
      some "Failed to capture camera frame." ∧
    (run s [Event.start k, Event.fire env]).result = none ∧
    (∀ o : VerifyOutcome,
        run s [Event.start k, Event.fire { frame := none, verify := o }] =
        run s [Event.start k, Event.fire env]) := by
  obtain ⟨fr, vo⟩ := env
  replace hf : fr = none := hf
  subst hf
  refine ⟨?_, ?_, ?_, fun o => ?_⟩ <;>
    simp [run, step, startStep, fireStep, runTimeoutBody, hp]

theorem capture_failure_short_circuit_witness :
    (initState.pending = [] ∧
     ({ frame := none, verify := .transportError } : AttemptEnv).frame = none) ∧
    ((run initState [Event.start ⟨0, by decide⟩,
        Event.fire { frame := none, verify := .transportError }]).status =
       LivenessStatus.IDLE ∧
     (run initState [Event.start ⟨0, by decide⟩,
        Event.fire { frame := none, verify := .transportError }]).error =
       some "Failed to capture camera frame." ∧
     (run initState [Event.start ⟨0, by decide⟩,
        Event.fire { frame := none, verify := .transportError }]).result = none ∧
     (∀ o : VerifyOutcome,
        run initState [Event.start ⟨0, by decide⟩,
          Event.fire { frame := none, verify := o }] =
        run initState [Event.start ⟨0, by decide⟩,
          Event.fire { frame := none, verify := .transportError }])) :=
  ⟨⟨rfl, rfl⟩,
   capture_failure_short_circuit initState ⟨0, by decide⟩
     { frame := none, verify := .transportError } rfl rfl⟩

/-- C5: For a session attempt begun with no stale timer pending, when capture
succeeds but the remote verification call throws, the session moves to IDLE —
not FAILED — with the generic connectivity error set and no verdict stored. -/
theorem remote_failure_returns_to_idle (s : AppState) (k : Fin CHALLENGES.length)
    (env : AttemptEnv) (f : String) (hp : s.pending = [])
    (hf : env.frame = some f) (hv : verifyLiveness env.verify = .error ()) :
    (run s [Event.start k, Event.fire env]).status = LivenessStatus.IDLE ∧
    (run s [Event.start k, Event.fire env]).error =
      some "Verification service unavailable. Check your internet connection." ∧
    (run s [Event.start k, Event.fire env]).result = none := by
  obtain ⟨fr, vo⟩ := env
  replace hf : fr = some f := hf
  replace hv : verifyLiveness vo = .error () := hv
  subst hf
  simp [run, step, startStep, fireStep, runTimeoutBody, hp, hv]

theorem remote_failure_returns_to_idle_witness :
    (initState.pending = [] ∧
     ({ frame := some "frame", verify := .transportError } : AttemptEnv).frame =
       some "frame" ∧
     verifyLiveness
       ({ frame := some "frame", verify := .transportError } : AttemptEnv).verify =
       .error ()) ∧
    ((run initState [Event.start ⟨0, by decide⟩,
        Event.fire { frame := some "frame", verify := .transportError }]).status =
       LivenessStatus.IDLE ∧
     (run initState [Event.start ⟨0, by decide⟩,
        Event.fire { frame := some "frame", verify := .transportError }]).error =
       some "Verification service unavailable. Check your internet connection." ∧
     (run initState [Event.start ⟨0, by decide⟩,
        Event.fire { frame := some "frame", verify := .transportError }]).result =
       none) :=
  ⟨⟨rfl, rfl, rfl⟩,
   remote_failure_returns_to_idle initState ⟨0, by decide⟩
     { frame := some "frame", verify := .transportError } "frame" rfl rfl rfl⟩

/-- C2: the code violates the claim. After starting a session, resetting
before the 4000 ms engagement delay elapses, and starting a new session, the
first attempt's timer is still pending in front of the queue (no setTimeout
handle is ever stored and clearTimeout is never called), and its firing
mutates the second session's state: status moves from CHALLENGE_REQUESTED to
SUCCESS and a verdict is stored while the active challenge is still the
second attempt's. -/
theorem stale_timer_fires_into_second_session :
    restartedState.status = LivenessStatus.CHALLENGE_REQUESTED ∧
    restartedState.result = none ∧
    restartedState.error = none ∧
    restartedState.pending =
      [CHALLENGES.get ⟨0, by decide⟩, CHALLENGES.get ⟨1, by decide⟩] ∧
    (step (Event.fire liveEnv) restartedState).status = LivenessStatus.SUCCESS ∧
    (step (Event.fire liveEnv) restartedState).result =
      some { isLive := some true, confidence := some 1, reasoning := some "live" } ∧
    (step (Event.fire liveEnv) restartedState).currentChallenge =
      some (CHALLENGES.get ⟨1, by decide⟩) :=
  ⟨rfl, rfl, rfl, rfl, rfl, rfl, rfl⟩

/-- C6: the code violates the claim. In the run where a session is started,
reset before the delay, restarted, and then both stale timers fire — the
first failing capture, the second storing a positive verdict — the reachable
terminal state is SUCCESS with both a verdict and an error present. -/
theorem terminal_state_with_verdict_and_error :
    mixedTraceState.status = LivenessStatus.SUCCESS ∧
    mixedTraceState.result =
      some { isLive := some true, confidence := some 1, reasoning := some "live" } ∧
    mixedTraceState.error = some "Failed to capture camera frame." :=
  ⟨rfl, rfl, rfl⟩

/-- C10: in every reachable state of the session state machine the status is
never RECORDING — no operation of the session ever assigns it. -/
theorem reachable_status_never_recording (s : AppState) (h : Reachable s) :
    s.status ≠ LivenessStatus.RECORDING := by
  induction h with
  | init => simp [initState]
  | next e h ih => exact step_status e _ ih

theorem reachable_status_never_recording_witness :
    Reachable initState ∧ initState.status ≠ LivenessStatus.RECORDING :=
  ⟨Reachable.init, reachable_status_never_recording initState Reachable.init⟩

end Liveness
